import Mathlib

/-!
Shallow embedding of the sandbox-provider core of the `open-lovable` repository:
the `SandboxProvider` contract (types module), the `DockerClient` low-level
engine client, and the `SelfHostedProvider` with its in-file `SimpleDockerClient`
(self-hosted-provider module).

Asynchronous TypeScript methods are modelled as pure functions over an explicit
provider state; every awaited call into the Docker client layer is mediated by a
`ClientModel` record of pure functions returning `Except String` (a rejected
promise is `.error msg`, where `msg` is the thrown `Error`'s message).  Each
provider operation additionally returns the list of client calls it issued, so
that "performs no command execution" and "the container was created and started"
are expressible.  The race between command execution and the timeout timer in
`runCommand` is resolved by an explicit `timedOut : Bool` oracle argument.
-/

namespace OpenLovable

/-- Substring occurrence on character lists (scan every suffix for the pattern
as a prefix). -/
def listContainsSub (pat : List Char) : List Char → Bool
  | [] => pat.isEmpty
  | c :: rest => pat.isPrefixOf (c :: rest) || listContainsSub pat rest

/-- Model of the JavaScript `String.prototype.includes` (substring test). -/
def jsIncludes (s pat : String) : Bool :=
  listContainsSub pat.toList s.toList

/-- Model of the JavaScript `String.prototype.startsWith`. -/
def jsStartsWith (s pat : String) : Bool :=
  pat.toList.isPrefixOf s.toList

/-- Model of the JavaScript `String.prototype.trim`: drop whitespace from both
ends. -/
def jsTrim (s : String) : String :=
  (((s.toList.dropWhile Char.isWhitespace).reverse.dropWhile
    Char.isWhitespace).reverse).asString

/-- Model of the JavaScript `s.split(c)` for a single-character separator
(used as `command.split(' ')` and `stdout.split('\n')` in the source): split at
every occurrence, keeping empty pieces, exactly as `List.splitOn` does. -/
def jsSplitChar (c : Char) (s : String) : List String :=
  (s.toList.splitOn c).map List.asString

/-- `command.split(' ')` from `SelfHostedProvider.runCommand`. -/
def jsSplitSpace (s : String) : List String :=
  jsSplitChar ' ' s

/-- Model of the JavaScript `array.join(' ')` (used as `packages.join(' ')`). -/
def jsJoinSpace (ps : List String) : String :=
  (List.intercalate [' '] (ps.map String.toList)).asString

/-- Model of `line.trim().split(/\s+/)` from `DockerClient.listFiles`: on a
trimmed line, splitting on runs of whitespace is splitting at each whitespace
character and dropping the empty pieces. -/
def jsSplitWsTokens (s : String) : List String :=
  (((jsTrim s).toList.splitOnP (fun ch => ch.isWhitespace)).filter
    (fun l => !l.isEmpty)).map List.asString

/-- `CommandResult` from the types module. -/
structure CommandResult where
  stdout : String
  stderr : String
  exitCode : Int
  success : Bool
deriving Repr, DecidableEq

/-- `SandboxInfo` from the types module (`createdAt : Date` becomes a numeric
timestamp). -/
structure SandboxInfo where
  sandboxId : String
  url : String
  provider : String
  createdAt : Nat
deriving Repr, DecidableEq

/-- The observable outcome of a raw exec in `DockerClient.execCommand`: the
accumulated stdout/stderr chunks and `inspect.State.ExitCode` (absent when the
inspect API returns no exit code). -/
structure ExecObservation where
  stdout : String
  stderr : String
  exitCodeRaw : Option Int
deriving Repr, DecidableEq

/-- `DockerClient.execCommand` (low-level client): on completion, the exit code
is `inspect.State.ExitCode || 0` (absent and `0` both give `0`) and
`success` is `exitCode === 0`; on a thrown error it returns (not throws) a
failed result carrying the error message. -/
def DockerClient.execCommand (obs : Except String ExecObservation) : CommandResult :=
  match obs with
  | .ok o =>
    let exitCode := o.exitCodeRaw.getD 0
    { stdout := o.stdout, stderr := o.stderr, exitCode := exitCode,
      success := exitCode == 0 }
  | .error msg =>
    { stdout := "", stderr := msg, exitCode := 1, success := false }

/-- One parsed line of `ls -la` output inside `DockerClient.listFiles`: skip
lines starting with `total` or containing `<DIR>`, take the last
whitespace-separated token of the trimmed line (the `parts.length > 0` guard in
the source corresponds to `getLast?` returning `some`), and drop `.` and `..`. -/
def lsLineFile (line : String) : Option String :=
  if jsStartsWith line "total" || jsIncludes line "<DIR>" then none
  else
    match (jsSplitWsTokens line).getLast? with
    | none => none
    | some filename =>
      if filename == "." || filename == ".." then none else some filename

/-- The parsing phase of `DockerClient.listFiles`, as a function of the raw
`ls -la` stdout: split into lines, keep lines that are nonempty after trimming,
then extract a filename from each line via `lsLineFile`. -/
def DockerClient.listFilesParse (stdout : String) : List String :=
  ((jsSplitChar '\n' stdout).filter (fun line => jsTrim line != "")).filterMap lsLineFile

/-- `SimpleDockerClient.execCommand` (the stub client wired into
`SelfHostedProvider`): simulated execution keyed on substrings of the joined
command. -/
def SimpleDockerClient.execCommand (command : List String) : CommandResult :=
  let commandStr := String.intercalate " " command
  if jsIncludes commandStr "test -f" then
    { stdout := "", stderr := "", exitCode := 1, success := false }
  else if jsIncludes commandStr "mkdir" then
    { stdout := "", stderr := "", exitCode := 0, success := true }
  else
    { stdout := "Command executed: " ++ commandStr, stderr := "",
      exitCode := 0, success := true }

/-- Container inspection data as consumed by `getSandboxUrl`: the published
port map, port key to `HostPort` string. -/
structure ContainerInfo where
  ports : List (String × String)
deriving Repr, DecidableEq

/-- The Docker-client interface as used by `SelfHostedProvider`: each method is
a pure function; `.error msg` models a rejected promise. -/
structure ClientModel where
  ping : Bool
  createContainer : Except String String
  startContainer : String → Except String Unit
  execCommand : String → List String → Except String CommandResult
  writeFile : String → String → String → Except String Unit
  readFile : String → String → Except String String
  listFiles : String → String → Except String (List String)
  getContainerInfo : String → Except String ContainerInfo
  isContainerRunning : String → Except String Bool
  stopContainer : String → Except String Unit
  removeContainer : String → Except String Unit

/-- One call into the Docker client layer, recorded so that theorems can state
which container operations an API call performed. -/
inductive ClientCall where
  | ping
  | createContainer (image : String)
  | startContainer (id : String)
  | exec (id : String) (argv : List String)
  | write (id : String) (path content : String)
  | read (id : String) (path : String)
  | list (id : String) (dir : String)
  | inspect (id : String)
  | running (id : String)
  | stop (id : String)
  | remove (id : String)
deriving Repr, DecidableEq

/-- The message of the error thrown by every provider operation that requires a
provisioned sandbox (the spec's `NotProvisionedError`). -/
def notProvisionedMsg : String := "Sandbox not created. Call createSandbox() first."

/-- The `e2b` subtree of `SandboxProviderConfig` (types module). -/
structure E2BConfig where
  apiKey : String
  timeoutMs : Option Int
  template : Option String
deriving Repr, DecidableEq

/-- The `vercel` subtree of `SandboxProviderConfig` (types module). -/
structure VercelConfig where
  teamId : Option String
  projectId : Option String
  token : Option String
  authMethod : Option String
deriving Repr, DecidableEq

/-- The `docker` connection parameters (shared shape of the config subtree and
the provider's internal `DockerConfig`). -/
structure DockerConfig where
  socketPath : Option String
  host : Option String
  port : Option Int
deriving Repr, DecidableEq

/-- The `resources` subtree of the self-hosted configuration. -/
structure ResourcesConfig where
  memory : Option Int
  cpu : Option Int
  timeout : Option Int
deriving Repr, DecidableEq

/-- The `network` subtree of the self-hosted configuration. -/
structure NetworkConfig where
  mode : Option String
  allowedPorts : Option (List Int)
deriving Repr, DecidableEq

/-- The `selfHosted` subtree of `SandboxProviderConfig` (types module). -/
structure SelfHostedSubConfig where
  docker : Option DockerConfig
  resources : Option ResourcesConfig
  network : Option NetworkConfig
  volumes : Option (List String)
  baseImage : Option String
deriving Repr, DecidableEq

/-- `SandboxProviderConfig` from the types module: the constructor-argument
union of backend-specific configuration subtrees. -/
structure SandboxProviderConfig where
  e2b : Option E2BConfig
  vercel : Option VercelConfig
  selfHosted : Option SelfHostedSubConfig
deriving Repr, DecidableEq

/-- The effective `resources` record of `SelfHostedConfig` (required fields). -/
structure EffResources where
  memory : Int
  cpu : Int
  timeout : Int
deriving Repr, DecidableEq

/-- The effective `network` record of `SelfHostedConfig` (required fields). -/
structure EffNetwork where
  mode : String
  allowedPorts : List Int
deriving Repr, DecidableEq

/-- `SelfHostedConfig`, the provider-internal effective configuration. -/
structure SelfHostedConfig where
  timeoutMinutes : Int
  timeoutMs : Int
  devPort : Int
  devServerStartupDelay : Int
  workingDirectory : String
  docker : DockerConfig
  resources : EffResources
  network : EffNetwork
  baseImage : String
  volumes : List String
deriving Repr, DecidableEq

/-- The process environment read by the `SelfHostedProvider` constructor:
`DOCKER_HOST`, and `DOCKER_PORT` after the source's `parseInt` (absent when the
variable is unset). -/
structure EnvVars where
  dockerHost : Option String
  dockerPort : Option Int
deriving Repr, DecidableEq

/-- The `selfHostedConfig` literal assigned in the `SelfHostedProvider`
constructor; every field except the two environment-derived docker entries is a
hard-coded constant. -/
def defaultSelfHostedConfig (env : EnvVars) : SelfHostedConfig where
  timeoutMinutes := 30
  timeoutMs := 30 * 60 * 1000
  devPort := 3000
  devServerStartupDelay := 7000
  workingDirectory := "/app"
  docker := { socketPath := some "/var/run/docker.sock",
              host := env.dockerHost, port := env.dockerPort }
  resources := { memory := 512 * 1024 * 1024, cpu := 50000, timeout := 30000 }
  network := { mode := "bridge", allowedPorts := [3000, 4000, 5000, 8000, 8080] }
  baseImage := "node:18-alpine"
  volumes := []

/-- The mutable fields of a `SelfHostedProvider` instance: the constructor
argument stored by the abstract base class, the effective self-hosted
configuration, and the container handle and cached sandbox info. -/
structure ProviderState where
  config : SandboxProviderConfig
  selfHostedConfig : SelfHostedConfig
  containerId : Option String
  sandboxInfo : Option SandboxInfo

/-- The `SelfHostedProvider` constructor: stores the constructor argument and
builds the hard-coded `selfHostedConfig`; no sandbox exists yet. -/
def mkSelfHostedProvider (config : SandboxProviderConfig) (env : EnvVars) : ProviderState where
  config := config
  selfHostedConfig := defaultSelfHostedConfig env
  containerId := none
  sandboxInfo := none

namespace SelfHostedProvider

/-- `SelfHostedProvider.runCommand`: throws `NotProvisionedError` when no
container handle is recorded; otherwise races the exec against the configured
timeout timer (`timedOut` tells which side of `Promise.race` wins).  Both the
timeout rejection and a rejected exec are caught and converted into a failed
`CommandResult`; the exec call is issued in either case. -/
def runCommand (c : ClientModel) (timedOut : Bool) (st : ProviderState)
    (command : String) : Except String CommandResult × List ClientCall :=
  match st.containerId with
  | none => (.error notProvisionedMsg, [])
  | some cid =>
    let argv := jsSplitSpace command
    if timedOut then
      (.ok { stdout := "", stderr := "Command timeout", exitCode := 1, success := false },
       [ClientCall.exec cid argv])
    else
      match c.execCommand cid argv with
      | .ok r => (.ok r, [ClientCall.exec cid argv])
      | .error e =>
        (.ok { stdout := "", stderr := e, exitCode := 1, success := false },
         [ClientCall.exec cid argv])

/-- `SelfHostedProvider.writeFile`: guard, then delegate to the client with the
path prefixed by the working directory; a client failure is rethrown wrapped. -/
def writeFile (c : ClientModel) (st : ProviderState) (path content : String) :
    Except String Unit × List ClientCall :=
  match st.containerId with
  | none => (.error notProvisionedMsg, [])
  | some cid =>
    let full := st.selfHostedConfig.workingDirectory ++ "/" ++ path
    match c.writeFile cid full content with
    | .ok _ => (.ok (), [ClientCall.write cid full content])
    | .error e => (.error ("Failed to write file: " ++ e), [ClientCall.write cid full content])

/-- `SelfHostedProvider.readFile`: guard, delegate, wrap failures. -/
def readFile (c : ClientModel) (st : ProviderState) (path : String) :
    Except String String × List ClientCall :=
  match st.containerId with
  | none => (.error notProvisionedMsg, [])
  | some cid =>
    let full := st.selfHostedConfig.workingDirectory ++ "/" ++ path
    match c.readFile cid full with
    | .ok s => (.ok s, [ClientCall.read cid full])
    | .error e => (.error ("Failed to read file: " ++ e), [ClientCall.read cid full])

/-- `SelfHostedProvider.listFiles`: guard, resolve the full path (a present but
empty directory argument is falsy in the source and yields the working
directory), delegate, wrap failures. -/
def listFiles (c : ClientModel) (st : ProviderState) (directory : Option String) :
    Except String (List String) × List ClientCall :=
  match st.containerId with
  | none => (.error notProvisionedMsg, [])
  | some cid =>
    let wd := st.selfHostedConfig.workingDirectory
    let fullPath :=
      match directory with
      | some d => if d.isEmpty then wd else wd ++ "/" ++ d
      | none => wd
    match c.listFiles cid fullPath with
    | .ok fs => (.ok fs, [ClientCall.list cid fullPath])
    | .error e => (.error ("Failed to list files: " ++ e), [ClientCall.list cid fullPath])

/-- `SelfHostedProvider.installPackages`: guard, then delegate to `runCommand`
on `"npm install " + packages.join(' ')` (the surrounding catch is unreachable
because `runCommand` never throws). -/
def installPackages (c : ClientModel) (timedOut : Bool) (st : ProviderState)
    (packages : List String) : Except String CommandResult × List ClientCall :=
  match st.containerId with
  | none => (.error notProvisionedMsg, [])
  | some _ => runCommand c timedOut st ("npm install " ++ jsJoinSpace packages)

/-- `SelfHostedProvider.getSandboxUrl`: `null` without a handle; otherwise
inspect the container and read the `HostPort` published for `3000/tcp` (an
absent binding, an empty `HostPort`, or an inspection failure all yield
`null`). -/
def getSandboxUrl (c : ClientModel) (st : ProviderState) :
    Option String × List ClientCall :=
  match st.containerId with
  | none => (none, [])
  | some cid =>
    match c.getContainerInfo cid with
    | .error _ => (none, [ClientCall.inspect cid])
    | .ok info =>
      match info.ports.lookup "3000/tcp" with
      | some hp =>
        if hp.isEmpty then (none, [ClientCall.inspect cid])
        else (some ("http://localhost:" ++ hp), [ClientCall.inspect cid])
      | none => (none, [ClientCall.inspect cid])

/-- `SelfHostedProvider.getSandboxInfo`: the cached info. -/
def getSandboxInfo (st : ProviderState) : Option SandboxInfo :=
  st.sandboxInfo

/-- `SelfHostedProvider.terminate`: no-op without a handle; otherwise stop then
remove (remove is not attempted when stop rejects), swallowing any failure, and
the `finally` block always clears the handle and the cached info. -/
def terminate (c : ClientModel) (st : ProviderState) :
    ProviderState × List ClientCall :=
  match st.containerId with
  | none => (st, [])
  | some cid =>
    let calls :=
      match c.stopContainer cid with
      | .error _ => [ClientCall.stop cid]
      | .ok _ => [ClientCall.stop cid, ClientCall.remove cid]
    ({ st with containerId := none, sandboxInfo := none }, calls)

/-- `SelfHostedProvider.isAlive`: `false` without a handle; otherwise the
client's running probe, with any probe failure treated as `false`. -/
def isAlive (c : ClientModel) (st : ProviderState) : Bool × List ClientCall :=
  match st.containerId with
  | none => (false, [])
  | some cid =>
    match c.isContainerRunning cid with
    | .ok b => (b, [ClientCall.running cid])
    | .error _ => (false, [ClientCall.running cid])

/-- The seeded default project manifest,
`JSON.stringify(defaultPackageJson, null, 2)`. -/
def defaultPackageJsonText : String :=
  "\x7b\n  \"name\": \"sandbox-project\",\n  \"version\": \"1.0.0\",\n  \"scripts\": \x7b\n    \"dev\": \"vite\",\n    \"build\": \"vite build\",\n    \"preview\": \"vite preview\"\n  \x7d,\n  \"dependencies\": \x7b\x7d\n\x7d"

/-- `SelfHostedProvider.initializeNodeEnvironment`: `mkdir -p` the working
directory (result ignored), probe for an existing manifest with `test -f`, and
write the default manifest when the probe fails; any rejected client call is
caught, logged, and rethrown unchanged. -/
def initializeNodeEnvironment (c : ClientModel) (cfg : SelfHostedConfig)
    (cid : String) : Except String Unit × List ClientCall :=
  let wd := cfg.workingDirectory
  let mkdirArgv := ["mkdir", "-p", wd]
  match c.execCommand cid mkdirArgv with
  | .error e => (.error e, [ClientCall.exec cid mkdirArgv])
  | .ok _ =>
    let testArgv := ["test", "-f", wd ++ "/package.json"]
    match c.execCommand cid testArgv with
    | .error e => (.error e, [ClientCall.exec cid mkdirArgv, ClientCall.exec cid testArgv])
    | .ok probe =>
      if probe.success then
        (.ok (), [ClientCall.exec cid mkdirArgv, ClientCall.exec cid testArgv])
      else
        let manifestPath := wd ++ "/package.json"
        match c.writeFile cid manifestPath defaultPackageJsonText with
        | .ok _ =>
          (.ok (), [ClientCall.exec cid mkdirArgv, ClientCall.exec cid testArgv,
                    ClientCall.write cid manifestPath defaultPackageJsonText])
        | .error e =>
          (.error e, [ClientCall.exec cid mkdirArgv, ClientCall.exec cid testArgv,
                      ClientCall.write cid manifestPath defaultPackageJsonText])

/-- `SelfHostedProvider.createSandbox`: probe connectivity (a failed probe
throws before the try block, unwrapped), create and start the container, record
the handle, seed the environment, resolve the preview URL (never throws; `null`
becomes the empty string), cache and return the `SandboxInfo`.  Every rejection
inside the try block is rethrown wrapped in a `ProvisionError` message.
`sandboxId` and `now` stand for the generated identifier and `new Date()`. -/
def createSandbox (c : ClientModel) (sandboxId : String) (now : Nat)
    (st : ProviderState) :
    Except String SandboxInfo × ProviderState × List ClientCall :=
  if c.ping = false then
    (.error "Docker is not available or not running", st, [ClientCall.ping])
  else
    let image := st.selfHostedConfig.baseImage
    match c.createContainer with
    | .error e =>
      (.error ("Failed to create self-hosted sandbox: " ++ e), st,
       [ClientCall.ping, ClientCall.createContainer image])
    | .ok cid =>
      match c.startContainer cid with
      | .error e =>
        (.error ("Failed to create self-hosted sandbox: " ++ e), st,
         [ClientCall.ping, ClientCall.createContainer image, ClientCall.startContainer cid])
      | .ok _ =>
        let st1 := { st with containerId := some cid }
        let head := [ClientCall.ping, ClientCall.createContainer image,
                     ClientCall.startContainer cid]
        match initializeNodeEnvironment c st1.selfHostedConfig cid with
        | (.error e, initCalls) =>
          (.error ("Failed to create self-hosted sandbox: " ++ e), st1, head ++ initCalls)
        | (.ok _, initCalls) =>
          let (urlOpt, urlCalls) := getSandboxUrl c st1
          let info : SandboxInfo :=
            { sandboxId := sandboxId, url := urlOpt.getD "",
              provider := "self-hosted", createdAt := now }
          (.ok info, { st1 with sandboxInfo := some info },
           head ++ initCalls ++ urlCalls)

end SelfHostedProvider

/-- The `SimpleDockerClient` wired into `SelfHostedProvider`, as a
`ClientModel`: `pingOk` is the outcome of its connectivity probe and `freshId`
the generated suffix of the container identifier; every other method is the
stub from the source (no call ever rejects). -/
def simpleClient (pingOk : Bool) (freshId : String) : ClientModel where
  ping := pingOk
  createContainer := .ok ("container-" ++ freshId)
  startContainer := fun _ => .ok ()
  execCommand := fun _ argv => .ok (SimpleDockerClient.execCommand argv)
  writeFile := fun _ _ _ => .ok ()
  readFile := fun _ _ => .ok "\x7b\x7d"
  listFiles := fun _ _ => .ok ["package.json", "src/", "index.html"]
  getContainerInfo := fun _ => .ok { ports := [("3000/tcp", "3001")] }
  isContainerRunning := fun _ => .ok true
  stopContainer := fun _ => .ok ()
  removeContainer := fun _ => .ok ()

/-- A client whose container comes up but whose filesystem bridge is broken:
used to exercise the step-5 (environment seeding) failure path of
`createSandbox`. -/
def seedFailClient : ClientModel where
  ping := true
  createContainer := .ok "c1"
  startContainer := fun _ => .ok ()
  execCommand := fun _ argv => .ok (SimpleDockerClient.execCommand argv)
  writeFile := fun _ _ _ => .error "disk full"
  readFile := fun _ _ => .error "disk full"
  listFiles := fun _ _ => .ok []
  getContainerInfo := fun _ => .error "no info"
  isContainerRunning := fun _ => .ok true
  stopContainer := fun _ => .ok ()
  removeContainer := fun _ => .ok ()

/-- An empty constructor argument. -/
def emptyConfig : SandboxProviderConfig where
  e2b := none
  vercel := none
  selfHosted := none

/-- An environment with neither `DOCKER_HOST` nor `DOCKER_PORT` set. -/
def env0 : EnvVars where
  dockerHost := none
  dockerPort := none

/-- A freshly constructed provider. -/
def st0 : ProviderState := mkSelfHostedProvider emptyConfig env0

/-- A provider holding a live container handle `c0` (as after a successful
`createSandbox`), with no cached info. -/
def stProvisioned : ProviderState :=
  { st0 with containerId := some "c0" }

/-- The data-model invariant of `CommandResult`: `success` is `exitCode == 0`. -/
@[reducible] def resultInvariant (r : CommandResult) : Prop :=
  r.success = (r.exitCode == 0)

/-- The provider state without the stored constructor argument (everything the
operations can observe). -/
def ProviderState.core (st : ProviderState) :
    SelfHostedConfig × Option String × Option SandboxInfo :=
  (st.selfHostedConfig, st.containerId, st.sandboxInfo)

/-- On a provisioned state, `runCommand` always resolves to a `CommandResult`
(never rejects): every branch of the race and of the catch returns `.ok`. -/
theorem runCommand_provisioned_ok (c : ClientModel) (timedOut : Bool)
    (st : ProviderState) (cid : String) (command : String)
    (h : st.containerId = some cid) :
    ∃ r, (SelfHostedProvider.runCommand c timedOut st command).1 = .ok r := by
  cases timedOut with
  | true =>
    exact ⟨{ stdout := "", stderr := "Command timeout", exitCode := 1, success := false },
      by simp [SelfHostedProvider.runCommand, h]⟩
  | false =>
    cases hE : c.execCommand cid (jsSplitSpace command) with
    | ok r => exact ⟨r, by simp [SelfHostedProvider.runCommand, h, hE]⟩
    | error e =>
      exact ⟨{ stdout := "", stderr := e, exitCode := 1, success := false },
        by simp [SelfHostedProvider.runCommand, h, hE]⟩

/-- On a provisioned state, a `writeFile` failure is an `IOError`, never the
`NotProvisionedError`. -/
theorem writeFile_provisioned_not_guard (c : ClientModel) (st : ProviderState)
    (cid : String) (path content : String) (h : st.containerId = some cid) :
    (SelfHostedProvider.writeFile c st path content).1 ≠ .error notProvisionedMsg := by
  cases hw : c.writeFile cid (st.selfHostedConfig.workingDirectory ++ "/" ++ path) content with
  | ok u => simp [SelfHostedProvider.writeFile, h, hw]
  | error e =>
    simp only [SelfHostedProvider.writeFile, h, hw, ne_eq, Except.error.injEq]
    intro hEq
    have h1 : ("Failed to write file: " ++ e).data.head? = some 'F' := rfl
    rw [hEq] at h1
    exact absurd h1 (by decide)

/-- On a provisioned state, a `readFile` failure is an `IOError`, never the
`NotProvisionedError`. -/
theorem readFile_provisioned_not_guard (c : ClientModel) (st : ProviderState)
    (cid : String) (path : String) (h : st.containerId = some cid) :
    (SelfHostedProvider.readFile c st path).1 ≠ .error notProvisionedMsg := by
  cases hw : c.readFile cid (st.selfHostedConfig.workingDirectory ++ "/" ++ path) with
  | ok s => simp [SelfHostedProvider.readFile, h, hw]
  | error e =>
    simp only [SelfHostedProvider.readFile, h, hw, ne_eq, Except.error.injEq]
    intro hEq
    have h1 : ("Failed to read file: " ++ e).data.head? = some 'F' := rfl
    rw [hEq] at h1
    exact absurd h1 (by decide)

/-- Any `.ok` result of `runCommand` satisfies the `CommandResult` invariant,
provided the client's exec results do. -/
theorem runCommand_result_invariant (c : ClientModel)
    (hc : ∀ cid argv r, c.execCommand cid argv = .ok r → resultInvariant r)
    (timedOut : Bool) (st : ProviderState) (command : String)
    (r : CommandResult) (calls : List ClientCall)
    (h : SelfHostedProvider.runCommand c timedOut st command = (.ok r, calls)) :
    resultInvariant r := by
  have h1 := congrArg Prod.fst h
  cases hcid : st.containerId with
  | none => simp [SelfHostedProvider.runCommand, hcid] at h1
  | some cid =>
    cases timedOut with
    | true =>
      simp [SelfHostedProvider.runCommand, hcid] at h1
      subst h1
      rfl
    | false =>
      cases he : c.execCommand cid (jsSplitSpace command) with
      | ok r2 =>
        simp [SelfHostedProvider.runCommand, hcid, he] at h1
        subst h1
        exact hc cid (jsSplitSpace command) _ he
      | error e =>
        simp [SelfHostedProvider.runCommand, hcid, he] at h1
        subst h1
        rfl

/-- C1: for every command string, calling `runCommand` on a provider without a
recorded container handle returns the `NotProvisionedError` and issues no
client call at all (in particular no exec). -/
theorem runCommand_unprovisioned (c : ClientModel) (timedOut : Bool)
    (st : ProviderState) (command : String) (h : st.containerId = none) :
    SelfHostedProvider.runCommand c timedOut st command =
      (.error notProvisionedMsg, []) := by
  unfold SelfHostedProvider.runCommand
  rw [h]

/-- C1 witness: a freshly constructed provider rejects `runCommand` with the
`NotProvisionedError` and performs no client call. -/
theorem runCommand_unprovisioned_witness :
    SelfHostedProvider.runCommand (simpleClient true "x") false st0 "ls -la" =
      (.error notProvisionedMsg, []) :=
  runCommand_unprovisioned (simpleClient true "x") false st0 "ls -la" rfl

/-- C2: `terminate` is idempotent and always restores the unprovisioned state:
for every client behaviour (in particular when `stopContainer` or
`removeContainer` rejects — `terminate` returns normally by construction, the
catch swallowing any rejection), the handle and the cached info are cleared, a
second consecutive call is a no-op, `isAlive` is `false` and `getSandboxInfo`
is absent afterwards.  The hypothesis is the class invariant that the cached
info can only be present while a handle is held. -/
theorem terminate_idempotent_clears (c : ClientModel) (st : ProviderState)
    (hinv : st.containerId = none → st.sandboxInfo = none) :
    (SelfHostedProvider.terminate c st).1.containerId = none ∧
    (SelfHostedProvider.terminate c st).1.sandboxInfo = none ∧
    SelfHostedProvider.terminate c (SelfHostedProvider.terminate c st).1 =
      ((SelfHostedProvider.terminate c st).1, []) ∧
    (SelfHostedProvider.isAlive c (SelfHostedProvider.terminate c st).1).1 = false ∧
    SelfHostedProvider.getSandboxInfo (SelfHostedProvider.terminate c st).1 = none := by
  cases hcid : st.containerId with
  | none =>
    simp [SelfHostedProvider.terminate, SelfHostedProvider.isAlive,
      SelfHostedProvider.getSandboxInfo, hcid, hinv hcid]
  | some cid =>
    simp [SelfHostedProvider.terminate, SelfHostedProvider.isAlive,
      SelfHostedProvider.getSandboxInfo, hcid]

/-- C2 witness: terminating a provisioned provider with a client whose
`stopContainer` and `removeContainer` both reject still clears everything, and
a second `terminate` is a no-op. -/
theorem terminate_idempotent_clears_witness :
    (SelfHostedProvider.terminate
      { seedFailClient with
          stopContainer := fun _ => .error "stop failed",
          removeContainer := fun _ => .error "remove failed" }
      stProvisioned).1.containerId = none ∧
    (SelfHostedProvider.terminate
      { seedFailClient with
          stopContainer := fun _ => .error "stop failed",
          removeContainer := fun _ => .error "remove failed" }
      stProvisioned).1.sandboxInfo = none :=
  ⟨(terminate_idempotent_clears _ stProvisioned (fun _ => rfl)).1,
   (terminate_idempotent_clears _ stProvisioned (fun _ => rfl)).2.1⟩

/-- C3: on a provisioned sandbox `runCommand` never rejects: the configured
timeout defaults to 30000 ms; every run resolves to a `CommandResult`; when the
timeout timer wins the race the result is `success=false`, non-zero
`exitCode` 1 and `stderr = "Command timeout"`; and a completed exec (including
one with a non-zero exit) is returned as-is. -/
theorem runCommand_never_raises_and_timeout :
    (∀ env : EnvVars, (defaultSelfHostedConfig env).resources.timeout = 30000) ∧
    (∀ (c : ClientModel) (timedOut : Bool) (st : ProviderState) (cid command : String),
      st.containerId = some cid →
        ∃ r, (SelfHostedProvider.runCommand c timedOut st command).1 = .ok r) ∧
    (∀ (c : ClientModel) (st : ProviderState) (cid command : String),
      st.containerId = some cid →
        (SelfHostedProvider.runCommand c true st command).1 =
          .ok { stdout := "", stderr := "Command timeout", exitCode := 1, success := false }) ∧
    (∀ (c : ClientModel) (st : ProviderState) (cid command : String) (r : CommandResult),
      st.containerId = some cid →
        c.execCommand cid (jsSplitSpace command) = .ok r →
          (SelfHostedProvider.runCommand c false st command).1 = .ok r) := by
  refine ⟨fun env => rfl, ?_, ?_, ?_⟩
  · exact fun c timedOut st cid command h =>
      runCommand_provisioned_ok c timedOut st cid command h
  · intro c st cid command h
    simp [SelfHostedProvider.runCommand, h]
  · intro c st cid command r h he
    simp [SelfHostedProvider.runCommand, h, he]

/-- C3 witness: with the stub client on a provisioned state, a timed-out run
returns the timeout result, and a probing command with a non-zero exit is
returned (not thrown) with its captured output. -/
theorem runCommand_never_raises_and_timeout_witness :
    (defaultSelfHostedConfig env0).resources.timeout = 30000 ∧
    (SelfHostedProvider.runCommand (simpleClient true "x") true stProvisioned "sleep 5").1 =
      .ok { stdout := "", stderr := "Command timeout", exitCode := 1, success := false } ∧
    (SelfHostedProvider.runCommand (simpleClient true "x") false stProvisioned
        "test -f /app/missing").1 =
      .ok { stdout := "", stderr := "", exitCode := 1, success := false } :=
  ⟨runCommand_never_raises_and_timeout.1 env0,
   runCommand_never_raises_and_timeout.2.2.1 (simpleClient true "x") stProvisioned
     "c0" "sleep 5" rfl,
   runCommand_never_raises_and_timeout.2.2.2 (simpleClient true "x") stProvisioned
     "c0" "test -f /app/missing" _ rfl rfl⟩

/-- C4: every `CommandResult` produced by a command-executing operation
satisfies `success = (exitCode == 0)`: both the low-level `DockerClient` exec
(any outcome, including its catch branch) and the stub `SimpleDockerClient`
exec (any argv), and — for any client whose exec results satisfy the invariant
— every result returned by `runCommand` and `installPackages`, including their
error and timeout branches. -/
theorem commandResult_success_iff_exitCode_zero :
    (∀ obs, resultInvariant (DockerClient.execCommand obs)) ∧
    (∀ argv, resultInvariant (SimpleDockerClient.execCommand argv)) ∧
    (∀ c : ClientModel,
      (∀ cid argv r, c.execCommand cid argv = .ok r → resultInvariant r) →
      ∀ timedOut st command r calls,
        SelfHostedProvider.runCommand c timedOut st command = (.ok r, calls) →
          resultInvariant r) ∧
    (∀ c : ClientModel,
      (∀ cid argv r, c.execCommand cid argv = .ok r → resultInvariant r) →
      ∀ timedOut st packages r calls,
        SelfHostedProvider.installPackages c timedOut st packages = (.ok r, calls) →
          resultInvariant r) := by
  refine ⟨?_, ?_, ?_, ?_⟩
  · intro obs
    cases obs with
    | ok o => rfl
    | error msg => rfl
  · intro argv
    unfold SimpleDockerClient.execCommand
    dsimp only
    split_ifs <;> rfl
  · exact fun c hc timedOut st command r calls h =>
      runCommand_result_invariant c hc timedOut st command r calls h
  · intro c hc timedOut st packages r calls h
    unfold SelfHostedProvider.installPackages at h
    cases hcid : st.containerId with
    | none => rw [hcid] at h; simp at h
    | some cid =>
      rw [hcid] at h
      exact runCommand_result_invariant c hc timedOut st
        ("npm install " ++ jsJoinSpace packages) r calls h

/-- C4 witness: concrete results of each operation satisfy the invariant. -/
theorem commandResult_success_iff_exitCode_zero_witness :
    resultInvariant (DockerClient.execCommand (.error "boom")) ∧
    resultInvariant (SimpleDockerClient.execCommand ["ls", "-la"]) ∧
    resultInvariant { stdout := "Command executed: echo hi", stderr := "",
                      exitCode := 0, success := true } ∧
    resultInvariant { stdout := "Command executed: npm install left-pad",
                      stderr := "", exitCode := 0, success := true } :=
  ⟨commandResult_success_iff_exitCode_zero.1 (.error "boom"),
   commandResult_success_iff_exitCode_zero.2.1 ["ls", "-la"],
   commandResult_success_iff_exitCode_zero.2.2.1 (simpleClient true "x")
     (fun _ argv _ h => Except.ok.inj h ▸ commandResult_success_iff_exitCode_zero.2.1 argv)
     false stProvisioned "echo hi" _ _ rfl,
   commandResult_success_iff_exitCode_zero.2.2.2 (simpleClient true "x")
     (fun _ argv _ h => Except.ok.inj h ▸ commandResult_success_iff_exitCode_zero.2.1 argv)
     false stProvisioned ["left-pad"] _ _ rfl⟩

/-- C5 counterexample: with a client whose container is created and started but
whose filesystem bridge rejects the manifest write, `createSandbox` fails with
a terminal `ProvisionError` even though the container was created and started —
refuting the claim that a step-5 (seeding) failure does not fail
`createSandbox`. -/
theorem createSandbox_seed_failure_counterexample :
    (SelfHostedProvider.createSandbox seedFailClient "sb" 0 st0).1 =
      .error "Failed to create self-hosted sandbox: disk full" ∧
    ClientCall.createContainer "node:18-alpine" ∈
      (SelfHostedProvider.createSandbox seedFailClient "sb" 0 st0).2.2 ∧
    ClientCall.startContainer "c1" ∈
      (SelfHostedProvider.createSandbox seedFailClient "sb" 0 st0).2.2 :=
  ⟨rfl, by decide, by decide⟩

/-- C5 (amended): any failure in steps 1–5 of `createSandbox` — connectivity
probe, container create, container start, and also the seeding of the working
directory and default manifest (whose failure is rethrown by
`initializeNodeEnvironment`) — is a terminal `ProvisionError`; only step 6
(preview-URL resolution) is non-fatal: when steps 1–5 succeed, `createSandbox`
returns a `SandboxInfo` whatever the inspection outcome, with the URL left
empty when resolution fails. -/
theorem createSandbox_step_failure_propagation :
    (∀ (c : ClientModel) (sid : String) (now : Nat) (st : ProviderState),
      c.ping = false →
        (SelfHostedProvider.createSandbox c sid now st).1 =
          .error "Docker is not available or not running") ∧
    (∀ (c : ClientModel) (sid : String) (now : Nat) (st : ProviderState) (e : String),
      c.ping = true → c.createContainer = .error e →
        (SelfHostedProvider.createSandbox c sid now st).1 =
          .error ("Failed to create self-hosted sandbox: " ++ e)) ∧
    (∀ (c : ClientModel) (sid : String) (now : Nat) (st : ProviderState) (cid e : String),
      c.ping = true → c.createContainer = .ok cid → c.startContainer cid = .error e →
        (SelfHostedProvider.createSandbox c sid now st).1 =
          .error ("Failed to create self-hosted sandbox: " ++ e)) ∧
    (∀ (c : ClientModel) (sid : String) (now : Nat) (st : ProviderState) (cid e : String),
      c.ping = true → c.createContainer = .ok cid → c.startContainer cid = .ok () →
      (SelfHostedProvider.initializeNodeEnvironment c st.selfHostedConfig cid).1 = .error e →
        (SelfHostedProvider.createSandbox c sid now st).1 =
          .error ("Failed to create self-hosted sandbox: " ++ e)) ∧
    (∀ (c : ClientModel) (sid : String) (now : Nat) (st : ProviderState) (cid : String),
      c.ping = true → c.createContainer = .ok cid → c.startContainer cid = .ok () →
      (SelfHostedProvider.initializeNodeEnvironment c st.selfHostedConfig cid).1 = .ok () →
        (SelfHostedProvider.createSandbox c sid now st).1 =
          .ok { sandboxId := sid,
                url := (SelfHostedProvider.getSandboxUrl c
                  { st with containerId := some cid }).1.getD "",
                provider := "self-hosted", createdAt := now }) := by
  refine ⟨?_, ?_, ?_, ?_, ?_⟩
  · intro c sid now st hp
    simp [SelfHostedProvider.createSandbox, hp]
  · intro c sid now st e hp hcc
    simp [SelfHostedProvider.createSandbox, hp, hcc]
  · intro c sid now st cid e hp hcc hsc
    simp [SelfHostedProvider.createSandbox, hp, hcc, hsc]
  · intro c sid now st cid e hp hcc hsc hinit
    rcases hpair : SelfHostedProvider.initializeNodeEnvironment c st.selfHostedConfig cid
      with ⟨res, icalls⟩
    rw [hpair] at hinit
    have hres : res = .error e := hinit
    subst hres
    simp [SelfHostedProvider.createSandbox, hp, hcc, hsc, hpair]
  · intro c sid now st cid hp hcc hsc hinit
    rcases hpair : SelfHostedProvider.initializeNodeEnvironment c st.selfHostedConfig cid
      with ⟨res, icalls⟩
    rw [hpair] at hinit
    have hres : res = .ok () := hinit
    subst hres
    rcases hurl : SelfHostedProvider.getSandboxUrl c { st with containerId := some cid }
      with ⟨urlOpt, urlCalls⟩
    simp [SelfHostedProvider.createSandbox, hp, hcc, hsc, hpair, hurl]

/-- C5 witness: the three interesting regimes at concrete inputs — an
unreachable engine fails step 1 terminally; a seeding failure fails
`createSandbox` terminally; and with the stub client (steps 1–5 succeed)
`createSandbox` returns the `SandboxInfo` with the resolved URL. -/
theorem createSandbox_step_failure_propagation_witness :
    (SelfHostedProvider.createSandbox (simpleClient false "x") "sb" 0 st0).1 =
      .error "Docker is not available or not running" ∧
    (SelfHostedProvider.createSandbox seedFailClient "sb" 0 st0).1 =
      .error "Failed to create self-hosted sandbox: disk full" ∧
    (SelfHostedProvider.createSandbox (simpleClient true "x") "sb" 0 st0).1 =
      .ok { sandboxId := "sb", url := "http://localhost:3001",
            provider := "self-hosted", createdAt := 0 } :=
  ⟨createSandbox_step_failure_propagation.1 (simpleClient false "x") "sb" 0 st0 rfl,
   createSandbox_step_failure_propagation.2.2.2.1 seedFailClient "sb" 0 st0
     "c1" "disk full" rfl rfl rfl rfl,
   createSandbox_step_failure_propagation.2.2.2.2 (simpleClient true "x") "sb" 0 st0
     "container-x" rfl rfl rfl rfl⟩

/-- C6 (refuting the round-trip): on a provisioned sandbox backed by the wired
`SimpleDockerClient`, `writeFile` succeeds without writing anything (the stub
is a no-op) and `readFile` always returns the fixed string `"{}"`, so
`writeFile(p, c)` followed by `readFile(p)` does not return `c` even for plain
ASCII content with nothing to escape. -/
theorem writeFile_readFile_no_roundtrip :
    (SelfHostedProvider.writeFile (simpleClient true "x") stProvisioned "test.txt"
        "Hello from self-hosted sandbox!").1 = .ok () ∧
    (SelfHostedProvider.readFile (simpleClient true "x") stProvisioned "test.txt").1 =
      .ok "\x7b\x7d" ∧
    ("\x7b\x7d" : String) ≠ "Hello from self-hosted sandbox!" :=
  ⟨rfl, rfl, by decide⟩

/-- C10: `createSandbox` is not atomic on failure after container start: when
the container was created and started but environment seeding fails,
`createSandbox` rejects, yet the handle stays recorded and no `SandboxInfo` is
cached; afterwards `runCommand` resolves to a result and `writeFile`/`readFile`
never fail with the `NotProvisionedError`. -/
theorem createSandbox_nonatomic_handle_retained
    (c : ClientModel) (sid : String) (now : Nat) (st : ProviderState)
    (cid e : String)
    (hping : c.ping = true) (hcc : c.createContainer = .ok cid)
    (hstart : c.startContainer cid = .ok ())
    (hinit : (SelfHostedProvider.initializeNodeEnvironment c st.selfHostedConfig cid).1 =
      .error e)
    (hsi : st.sandboxInfo = none) :
    (SelfHostedProvider.createSandbox c sid now st).1 =
      .error ("Failed to create self-hosted sandbox: " ++ e) ∧
    (SelfHostedProvider.createSandbox c sid now st).2.1.containerId = some cid ∧
    SelfHostedProvider.getSandboxInfo
      (SelfHostedProvider.createSandbox c sid now st).2.1 = none ∧
    (∀ (timedOut : Bool) (command : String), ∃ r,
      (SelfHostedProvider.runCommand c timedOut
        (SelfHostedProvider.createSandbox c sid now st).2.1 command).1 = .ok r) ∧
    (∀ path content,
      (SelfHostedProvider.writeFile c
        (SelfHostedProvider.createSandbox c sid now st).2.1 path content).1 ≠
        .error notProvisionedMsg) ∧
    (∀ path,
      (SelfHostedProvider.readFile c
        (SelfHostedProvider.createSandbox c sid now st).2.1 path).1 ≠
        .error notProvisionedMsg) := by
  rcases hpair : SelfHostedProvider.initializeNodeEnvironment c st.selfHostedConfig cid
    with ⟨res, icalls⟩
  rw [hpair] at hinit
  have hres : res = .error e := hinit
  subst hres
  have hstate : (SelfHostedProvider.createSandbox c sid now st).2.1 =
      { st with containerId := some cid } := by
    simp [SelfHostedProvider.createSandbox, hping, hcc, hstart, hpair]
  refine ⟨?_, ?_, ?_, ?_, ?_, ?_⟩
  · simp [SelfHostedProvider.createSandbox, hping, hcc, hstart, hpair]
  · rw [hstate]
  · rw [hstate]; simpa [SelfHostedProvider.getSandboxInfo] using hsi
  · intro timedOut command
    exact runCommand_provisioned_ok c timedOut _ cid command (by rw [hstate])
  · intro path content
    exact writeFile_provisioned_not_guard c _ cid path content (by rw [hstate])
  · intro path
    exact readFile_provisioned_not_guard c _ cid path (by rw [hstate])

/-- C10 witness: with the seeding-failure client, the failed `createSandbox`
leaves the handle `c1` recorded, no cached info, and a subsequent `writeFile`
does not report the `NotProvisionedError`. -/
theorem createSandbox_nonatomic_handle_retained_witness :
    (SelfHostedProvider.createSandbox seedFailClient "sb" 0 st0).2.1.containerId =
      some "c1" ∧
    SelfHostedProvider.getSandboxInfo
      (SelfHostedProvider.createSandbox seedFailClient "sb" 0 st0).2.1 = none ∧
    (SelfHostedProvider.writeFile seedFailClient
      (SelfHostedProvider.createSandbox seedFailClient "sb" 0 st0).2.1
      "a.txt" "x").1 ≠ .error notProvisionedMsg :=
  ⟨(createSandbox_nonatomic_handle_retained seedFailClient "sb" 0 st0 "c1" "disk full"
      rfl rfl rfl rfl rfl).2.1,
   (createSandbox_nonatomic_handle_retained seedFailClient "sb" 0 st0 "c1" "disk full"
      rfl rfl rfl rfl rfl).2.2.1,
   (createSandbox_nonatomic_handle_retained seedFailClient "sb" 0 st0 "c1" "disk full"
      rfl rfl rfl rfl rfl).2.2.2.2.1 "a.txt" "x"⟩

/-- Splitting on a space recovers the pieces of a space-joined concatenation
whose pieces are space-free. -/
theorem splitOn_space_concat (l1 l2 : List Char) (K : List (List Char))
    (h1 : ∀ ch ∈ l1, ch ≠ ' ') (h2 : ∀ ch ∈ l2, ch ≠ ' ')
    (hx : ∀ l ∈ K, (' ' : Char) ∉ l) (hK : K ≠ []) :
    List.splitOn ' ' (l1 ++ ' ' :: (l2 ++ ' ' :: List.intercalate [' '] K))
      = l1 :: l2 :: K := by
  have hs : ((' ' : Char) == ' ') = true := rfl
  have hsplit := List.splitOn_intercalate K ' ' hx hK
  simp only [List.splitOn] at hsplit ⊢
  rw [List.splitOnP_first (fun x => x == ' ') l1
    (fun x hmem => by simp [h1 x hmem]) ' ' hs]
  rw [List.splitOnP_first (fun x => x == ' ') l2
    (fun x hmem => by simp [h2 x hmem]) ' ' hs]
  rw [hsplit]

/-- The whitespace split applied by `runCommand` to the command built by
`installPackages` yields exactly the package-manager argv, provided the package
names contain no space. -/
theorem jsSplitSpace_npm_install (ps : List String) (hne : ps ≠ [])
    (hsp : ∀ q ∈ ps, (' ' : Char) ∉ q.toList) :
    jsSplitSpace ("npm install " ++ jsJoinSpace ps) = "npm" :: "install" :: ps := by
  have hK : ps.map String.toList ≠ [] := by simpa using hne
  have hx : ∀ l ∈ ps.map String.toList, (' ' : Char) ∉ l := by
    intro l hl
    rcases List.mem_map.1 hl with ⟨q, hq, rfl⟩
    exact hsp q hq
  have hdata : ("npm install " ++ jsJoinSpace ps).toList
      = "npm".toList ++ ' ' :: ("install".toList ++ ' ' ::
          List.intercalate [' '] (ps.map String.toList)) := by
    show ("npm install " ++ jsJoinSpace ps).data = _
    rw [String.data_append]
    have hlit : ("npm install ").data = "npm".data ++ ' ' :: ("install".data ++ [' ']) := rfl
    have hjoin : (jsJoinSpace ps).data = List.intercalate [' '] (ps.map String.toList) := rfl
    rw [hlit, hjoin]
    simp [String.toList, List.append_assoc]
  unfold jsSplitSpace jsSplitChar
  rw [hdata]
  rw [splitOn_space_concat _ _ _ (by decide) (by decide) hx hK]
  simp only [List.map_cons, List.map_map, String.asString_toList]
  rw [show (List.asString ∘ String.toList) = id from funext String.asString_toList,
    List.map_id]

/-- C7: on a provisioned sandbox, `installPackages(names)` is the delegation to
`runCommand("npm install " + names.join(' '))`; for every non-empty list of
package names (names contain no space) the argv issued to the container is
`["npm", "install", name1, …, nameN]`, and a completed install's
`CommandResult` — the package manager's real exit code — is returned
unchanged. -/
theorem installPackages_refines_runCommand
    (c : ClientModel) (st : ProviderState) (cid : String) (packages : List String)
    (h : st.containerId = some cid) (hne : packages ≠ [])
    (hsp : ∀ q ∈ packages, (' ' : Char) ∉ q.toList) :
    (∀ timedOut, SelfHostedProvider.installPackages c timedOut st packages =
        SelfHostedProvider.runCommand c timedOut st
          ("npm install " ++ jsJoinSpace packages)) ∧
    (∀ timedOut, (SelfHostedProvider.installPackages c timedOut st packages).2 =
        [ClientCall.exec cid ("npm" :: "install" :: packages)]) ∧
    (∀ r, c.execCommand cid ("npm" :: "install" :: packages) = .ok r →
        (SelfHostedProvider.installPackages c false st packages).1 = .ok r) := by
  have hsplit := jsSplitSpace_npm_install packages hne hsp
  refine ⟨?_, ?_, ?_⟩
  · intro timedOut
    simp [SelfHostedProvider.installPackages, h]
  · intro timedOut
    cases timedOut with
    | true =>
      simp [SelfHostedProvider.installPackages, SelfHostedProvider.runCommand, h, hsplit]
    | false =>
      cases he : c.execCommand cid ("npm" :: "install" :: packages) with
      | ok r =>
        simp [SelfHostedProvider.installPackages, SelfHostedProvider.runCommand,
          h, hsplit, he]
      | error e =>
        simp [SelfHostedProvider.installPackages, SelfHostedProvider.runCommand,
          h, hsplit, he]
  · intro r he
    simp [SelfHostedProvider.installPackages, SelfHostedProvider.runCommand, h, hsplit, he]

/-- C7 witness: `installPackages(["left-pad"])` issues exactly the argv
`["npm", "install", "left-pad"]` and returns the exec's result. -/
theorem installPackages_refines_runCommand_witness :
    (SelfHostedProvider.installPackages (simpleClient true "x") false stProvisioned
        ["left-pad"]).2 = [ClientCall.exec "c0" ["npm", "install", "left-pad"]] ∧
    (SelfHostedProvider.installPackages (simpleClient true "x") false stProvisioned
        ["left-pad"]).1 =
      .ok { stdout := "Command executed: npm install left-pad", stderr := "",
            exitCode := 0, success := true } :=
  ⟨(installPackages_refines_runCommand (simpleClient true "x") stProvisioned "c0"
      ["left-pad"] rfl (by decide) (by decide)).2.1 false,
   (installPackages_refines_runCommand (simpleClient true "x") stProvisioned "c0"
      ["left-pad"] rfl (by decide) (by decide)).2.2 _ rfl⟩

/-- Every filename produced by the `ls -la` parsing of `DockerClient.listFiles`
is neither `.` nor `..` and is the last whitespace token of a surviving line:
one that is nonempty after trimming, does not start with `total` and does not
contain `<DIR>`. -/
theorem lsParse_membership (stdout f : String)
    (hf : f ∈ DockerClient.listFilesParse stdout) :
    f ≠ "." ∧ f ≠ ".." ∧
    ∃ line, line ∈ jsSplitChar '\n' stdout ∧ jsTrim line ≠ "" ∧
      jsStartsWith line "total" = false ∧ jsIncludes line "<DIR>" = false ∧
      (jsSplitWsTokens line).getLast? = some f := by
  unfold DockerClient.listFilesParse at hf
  rcases List.mem_filterMap.1 hf with ⟨line, hline, hfl⟩
  rcases List.mem_filter.1 hline with ⟨hmem, htrim⟩
  unfold lsLineFile at hfl
  by_cases hskip : (jsStartsWith line "total" || jsIncludes line "<DIR>") = true
  · rw [if_pos hskip] at hfl; exact absurd hfl (by simp)
  · rw [if_neg hskip] at hfl
    cases hg : (jsSplitWsTokens line).getLast? with
    | none => rw [hg] at hfl; simp at hfl
    | some fn =>
      rw [hg] at hfl
      dsimp only at hfl
      by_cases hdot : (fn == "." || fn == "..") = true
      · rw [if_pos hdot] at hfl; simp at hfl
      · rw [if_neg hdot] at hfl
        have hfn : fn = f := by simpa using hfl
        subst hfn
        simp only [Bool.or_eq_true, beq_iff_eq, not_or] at hdot
        simp only [Bool.or_eq_true, not_or, Bool.not_eq_true] at hskip
        exact ⟨hdot.1, hdot.2, line, hmem, by simpa using htrim, hskip.1, hskip.2, hg⟩

/-- C8: directory listings exclude `.`, `..` and the header/total lines of the
underlying `ls -la` output (every surviving entry comes from a line that is not
a `total` header and not a `<DIR>` marker line), and on a freshly provisioned
sandbox the provider's `listFiles` result includes the seeded project manifest
filename `package.json` and no `.`/`..` entries. -/
theorem listFiles_excludes_dots_includes_manifest :
    (∀ stdout f, f ∈ DockerClient.listFilesParse stdout →
      f ≠ "." ∧ f ≠ ".." ∧
      ∃ line, line ∈ jsSplitChar '\n' stdout ∧ jsTrim line ≠ "" ∧
        jsStartsWith line "total" = false ∧ jsIncludes line "<DIR>" = false ∧
        (jsSplitWsTokens line).getLast? = some f) ∧
    ((SelfHostedProvider.listFiles (simpleClient true "x")
        (SelfHostedProvider.createSandbox (simpleClient true "x") "sb" 0 st0).2.1 none).1 =
      .ok ["package.json", "src/", "index.html"] ∧
      "package.json" ∈ (["package.json", "src/", "index.html"] : List String) ∧
      "." ∉ (["package.json", "src/", "index.html"] : List String) ∧
      ".." ∉ (["package.json", "src/", "index.html"] : List String)) :=
  ⟨lsParse_membership, rfl, by decide, by decide, by decide⟩

/-- C8 witness: the parse property applied to a concrete two-line `ls -la`
output whose only surviving entry is `package.json`. -/
theorem listFiles_excludes_dots_includes_manifest_witness :
    ("package.json" : String) ≠ "." ∧ ("package.json" : String) ≠ ".." ∧
    ∃ line, line ∈ jsSplitChar '\n'
        "total 4\n-rw-r--r-- 1 root root 0 Jan 1 00:00 package.json" ∧
      jsTrim line ≠ "" ∧ jsStartsWith line "total" = false ∧
      jsIncludes line "<DIR>" = false ∧
      (jsSplitWsTokens line).getLast? = some "package.json" :=
  listFiles_excludes_dots_includes_manifest.1
    "total 4\n-rw-r--r-- 1 root root 0 Jan 1 00:00 package.json" "package.json"
    (by decide)

/-- `getSandboxUrl` does not read the stored constructor argument. -/
theorem getSandboxUrl_config_irrelevant (c : ClientModel)
    (c1 c2 : SandboxProviderConfig) (shc : SelfHostedConfig)
    (cidOpt : Option String) (si : Option SandboxInfo) :
    SelfHostedProvider.getSandboxUrl c ⟨c1, shc, cidOpt, si⟩ =
      SelfHostedProvider.getSandboxUrl c ⟨c2, shc, cidOpt, si⟩ := by
  cases cidOpt <;> rfl

/-- `createSandbox` does not read the stored constructor argument: the result,
the observable part of the new state, and the client-call trace agree for any
two stored configs. -/
theorem createSandbox_config_irrelevant (c : ClientModel) (sid : String) (now : Nat)
    (c1 c2 : SandboxProviderConfig) (shc : SelfHostedConfig)
    (cidOpt : Option String) (si : Option SandboxInfo) :
    (SelfHostedProvider.createSandbox c sid now ⟨c1, shc, cidOpt, si⟩).1 =
      (SelfHostedProvider.createSandbox c sid now ⟨c2, shc, cidOpt, si⟩).1 ∧
    (SelfHostedProvider.createSandbox c sid now ⟨c1, shc, cidOpt, si⟩).2.1.core =
      (SelfHostedProvider.createSandbox c sid now ⟨c2, shc, cidOpt, si⟩).2.1.core ∧
    (SelfHostedProvider.createSandbox c sid now ⟨c1, shc, cidOpt, si⟩).2.2 =
      (SelfHostedProvider.createSandbox c sid now ⟨c2, shc, cidOpt, si⟩).2.2 := by
  cases hping : c.ping
  · simp [SelfHostedProvider.createSandbox, hping, ProviderState.core]
  · cases hcc : c.createContainer with
    | error e => simp [SelfHostedProvider.createSandbox, hping, hcc, ProviderState.core]
    | ok cid =>
      cases hsc : c.startContainer cid with
      | error e =>
        simp [SelfHostedProvider.createSandbox, hping, hcc, hsc, ProviderState.core]
      | ok u =>
        cases u
        rcases hpair : SelfHostedProvider.initializeNodeEnvironment c shc cid
          with ⟨res, icalls⟩
        cases res with
        | error e =>
          simp [SelfHostedProvider.createSandbox, hping, hcc, hsc, hpair,
            ProviderState.core]
        | ok u2 =>
          cases u2
          rcases hurl : SelfHostedProvider.getSandboxUrl c ⟨c1, shc, some cid, si⟩
            with ⟨urlOpt, urlCalls⟩
          have hurl2 : SelfHostedProvider.getSandboxUrl c ⟨c2, shc, some cid, si⟩ =
              (urlOpt, urlCalls) :=
            (getSandboxUrl_config_irrelevant c c2 c1 shc (some cid) si).trans hurl
          simp [SelfHostedProvider.createSandbox, hping, hcc, hsc, hpair, hurl, hurl2,
            ProviderState.core]

/-- C9: the constructor argument is never read back: two providers built from
any two `SandboxProviderConfig` values (same environment) differ only in the
stored argument itself; the effective self-hosted configuration is hard-coded
(30 s command timeout, 512 MB memory, CPU quota 50000, dev port 3000, working
directory `/app`, base image `node:18-alpine`, bridge network); and every
provider operation yields identical results, observable state and client-call
traces irrespective of the stored config. -/
theorem selfHostedConfig_hardcoded :
    (∀ (env : EnvVars) (c1 c2 : SandboxProviderConfig),
      mkSelfHostedProvider c1 env = { mkSelfHostedProvider c2 env with config := c1 }) ∧
    (∀ env : EnvVars,
      (defaultSelfHostedConfig env).resources.timeout = 30000 ∧
      (defaultSelfHostedConfig env).resources.memory = 512 * 1024 * 1024 ∧
      (defaultSelfHostedConfig env).resources.cpu = 50000 ∧
      (defaultSelfHostedConfig env).devPort = 3000 ∧
      (defaultSelfHostedConfig env).workingDirectory = "/app" ∧
      (defaultSelfHostedConfig env).baseImage = "node:18-alpine" ∧
      (defaultSelfHostedConfig env).network.mode = "bridge") ∧
    (∀ (c : ClientModel) (timedOut : Bool) (c1 c2 : SandboxProviderConfig)
        (shc : SelfHostedConfig) (cidOpt : Option String) (si : Option SandboxInfo)
        (command : String),
      SelfHostedProvider.runCommand c timedOut ⟨c1, shc, cidOpt, si⟩ command =
        SelfHostedProvider.runCommand c timedOut ⟨c2, shc, cidOpt, si⟩ command) ∧
    (∀ (c : ClientModel) (c1 c2 : SandboxProviderConfig) (shc : SelfHostedConfig)
        (cidOpt : Option String) (si : Option SandboxInfo) (path content : String),
      SelfHostedProvider.writeFile c ⟨c1, shc, cidOpt, si⟩ path content =
        SelfHostedProvider.writeFile c ⟨c2, shc, cidOpt, si⟩ path content) ∧
    (∀ (c : ClientModel) (c1 c2 : SandboxProviderConfig) (shc : SelfHostedConfig)
        (cidOpt : Option String) (si : Option SandboxInfo) (path : String),
      SelfHostedProvider.readFile c ⟨c1, shc, cidOpt, si⟩ path =
        SelfHostedProvider.readFile c ⟨c2, shc, cidOpt, si⟩ path) ∧
    (∀ (c : ClientModel) (c1 c2 : SandboxProviderConfig) (shc : SelfHostedConfig)
        (cidOpt : Option String) (si : Option SandboxInfo) (dir : Option String),
      SelfHostedProvider.listFiles c ⟨c1, shc, cidOpt, si⟩ dir =
        SelfHostedProvider.listFiles c ⟨c2, shc, cidOpt, si⟩ dir) ∧
    (∀ (c : ClientModel) (timedOut : Bool) (c1 c2 : SandboxProviderConfig)
        (shc : SelfHostedConfig) (cidOpt : Option String) (si : Option SandboxInfo)
        (packages : List String),
      SelfHostedProvider.installPackages c timedOut ⟨c1, shc, cidOpt, si⟩ packages =
        SelfHostedProvider.installPackages c timedOut ⟨c2, shc, cidOpt, si⟩ packages) ∧
    (∀ (c : ClientModel) (c1 c2 : SandboxProviderConfig) (shc : SelfHostedConfig)
        (cidOpt : Option String) (si : Option SandboxInfo),
      SelfHostedProvider.getSandboxUrl c ⟨c1, shc, cidOpt, si⟩ =
        SelfHostedProvider.getSandboxUrl c ⟨c2, shc, cidOpt, si⟩ ∧
      SelfHostedProvider.getSandboxInfo (⟨c1, shc, cidOpt, si⟩ : ProviderState) =
        SelfHostedProvider.getSandboxInfo (⟨c2, shc, cidOpt, si⟩ : ProviderState) ∧
      SelfHostedProvider.isAlive c ⟨c1, shc, cidOpt, si⟩ =
        SelfHostedProvider.isAlive c ⟨c2, shc, cidOpt, si⟩) ∧
    (∀ (c : ClientModel) (c1 c2 : SandboxProviderConfig) (shc : SelfHostedConfig)
        (cidOpt : Option String) (si : Option SandboxInfo),
      (SelfHostedProvider.terminate c ⟨c1, shc, cidOpt, si⟩).1.core =
        (SelfHostedProvider.terminate c ⟨c2, shc, cidOpt, si⟩).1.core ∧
      (SelfHostedProvider.terminate c ⟨c1, shc, cidOpt, si⟩).2 =
        (SelfHostedProvider.terminate c ⟨c2, shc, cidOpt, si⟩).2) ∧
    (∀ (c : ClientModel) (sid : String) (now : Nat) (c1 c2 : SandboxProviderConfig)
        (shc : SelfHostedConfig) (cidOpt : Option String) (si : Option SandboxInfo),
      (SelfHostedProvider.createSandbox c sid now ⟨c1, shc, cidOpt, si⟩).1 =
        (SelfHostedProvider.createSandbox c sid now ⟨c2, shc, cidOpt, si⟩).1 ∧
      (SelfHostedProvider.createSandbox c sid now ⟨c1, shc, cidOpt, si⟩).2.1.core =
        (SelfHostedProvider.createSandbox c sid now ⟨c2, shc, cidOpt, si⟩).2.1.core ∧
      (SelfHostedProvider.createSandbox c sid now ⟨c1, shc, cidOpt, si⟩).2.2 =
        (SelfHostedProvider.createSandbox c sid now ⟨c2, shc, cidOpt, si⟩).2.2) := by
  refine ⟨?_, ?_, ?_, ?_, ?_, ?_, ?_, ?_, ?_, ?_⟩
  · intro env c1 c2; rfl
  · intro env; exact ⟨rfl, rfl, rfl, rfl, rfl, rfl, rfl⟩
  · intro c timedOut c1 c2 shc cidOpt si command; rfl
  · intro c c1 c2 shc cidOpt si path content; rfl
  · intro c c1 c2 shc cidOpt si path; rfl
  · intro c c1 c2 shc cidOpt si dir; rfl
  · intro c timedOut c1 c2 shc cidOpt si packages; rfl
  · intro c c1 c2 shc cidOpt si
    exact ⟨getSandboxUrl_config_irrelevant c c1 c2 shc cidOpt si, rfl, rfl⟩
  · intro c c1 c2 shc cidOpt si
    cases cidOpt with
    | none => exact ⟨rfl, rfl⟩
    | some cid => exact ⟨rfl, rfl⟩
  · intro c sid now c1 c2 shc cidOpt si
    exact createSandbox_config_irrelevant c sid now c1 c2 shc cidOpt si

end OpenLovable
